import Mathlib

/-!
Shallow embedding of the staff-canteen application (`streamlit_app.py`).

The persistent store (four SQLite tables) is modelled as `DB`: lists of rows.
The `st.cache_data` read cache is modelled as `Cache`: per-read-path
association lists keyed by the read's argument tuple, cleared wholesale by
`clear_all_caches` (here: replacing the cache with `Cache.empty`).
Statuses keep the source's strings: "SUKSES" (SUCCESS) and "GAGAL" (FAILURE).
Machine integers of SQLite are modelled as `Int`.
-/

/-- Reserved admin barcode (`ADMIN_BARCODE_ID = '9999'`). -/
def ADMIN_BARCODE_ID : String := "9999"

/-- A row of the `staf` table (the AUTOINCREMENT `id` column is omitted:
no operation reads it). -/
structure Staf where
  barcode_id : String
  nama : String
  departemen : String
  jatah_harian : Int
  jatah_tersisa : Int
deriving Repr, DecidableEq

/-- A row of the `transaksi` table, fields in the order of the INSERT in
`record_transaction` (the AUTOINCREMENT `id` column is omitted). -/
structure Transaksi where
  barcode_id : String
  tanggal : String
  waktu : String
  menu : String
  harga : Int
  staff_nama : String
  status_scan : String
deriving Repr, DecidableEq

/-- The payload stored as JSON in `menu_harian.menu_data`:
`{"menu": ..., "harga": ...}` (JSON serialization is bypassed). -/
structure Menu where
  menu : String
  harga : Int
deriving Repr, DecidableEq

/-- The persistent store: the four tables. `menu_harian` is keyed by the
UNIQUE `tanggal` column; `departemen` holds the UNIQUE `nama_dept` values. -/
structure DB where
  departemen : List String
  menu_harian : List (String × Menu)
  staf : List Staf
  transaksi : List Transaksi
deriving Repr, DecidableEq

/-- `get_staf_data(barcode_id)`: `SELECT ... FROM staf WHERE barcode_id = ?`,
`fetchone()` — the first matching row, if any. -/
def getStafDataDB (barcode_id : String) (db : DB) : Option Staf :=
  db.staf.find? (fun s => s.barcode_id == barcode_id)

/-- `get_staf_data()` with no barcode: `SELECT ... FROM staf` (all rows). -/
def getStafAllDB (db : DB) : List Staf :=
  db.staf

/-- `get_departemen_data()`: `SELECT nama_dept FROM departemen ORDER BY nama_dept`. -/
def getDepartemenDB (db : DB) : List String :=
  db.departemen.mergeSort (fun a b => decide (a ≤ b))

/-- `get_menu_today(date_str)`: `SELECT menu_data FROM menu_harian WHERE tanggal = ?`,
JSON-decoded. -/
def getMenuTodayDB (date_str : String) (db : DB) : Option Menu :=
  (db.menu_harian.find? (fun p => p.1 == date_str)).map (fun p => p.2)

/-- A row of the report query's SELECT list in `get_transactions_by_date`
(`t.id` omitted): `t.tanggal, t.waktu, t.barcode_id, t.staff_nama,
s.departemen, t.menu, t.harga, t.status_scan`. -/
structure TransRow where
  tanggal : String
  waktu : String
  barcode_id : String
  staff_nama : String
  departemen : String
  menu : String
  harga : Int
  status_scan : String
deriving Repr, DecidableEq

/-- The Python truthiness test `if departemen and departemen != "SEMUA DEPARTEMEN"`:
the filter is active only for a non-empty value different from the sentinel. -/
def deptFilter (departemen : Option String) (d : String) : Bool :=
  match departemen with
  | none => true
  | some f => if f = "" || f = "SEMUA DEPARTEMEN" then true else d == f

/-- The Python truthiness test `if status_scan and status_scan != "SEMUA STATUS"`. -/
def statusFilter (status_scan : Option String) (st : String) : Bool :=
  match status_scan with
  | none => true
  | some f => if f = "" || f = "SEMUA STATUS" then true else st == f

/-- `get_transactions_by_date`: an INNER JOIN of `transaksi` with `staf` on
`barcode_id`, filtered by `tanggal BETWEEN ? AND ?` and the optional
department/status filters, ordered by `tanggal DESC, waktu DESC`. -/
def getTransactionsByDateDB (from_date to_date : String)
    (departemen status_scan : Option String) (db : DB) : List TransRow :=
  (db.transaksi.flatMap (fun t =>
    db.staf.filterMap (fun s =>
      if s.barcode_id = t.barcode_id ∧ from_date ≤ t.tanggal ∧ t.tanggal ≤ to_date ∧
          deptFilter departemen s.departemen = true ∧
          statusFilter status_scan t.status_scan = true then
        some ⟨t.tanggal, t.waktu, t.barcode_id, t.staff_nama, s.departemen,
              t.menu, t.harga, t.status_scan⟩
      else none))).mergeSort
    (fun a b => decide (b.tanggal < a.tanggal ∨ (b.tanggal = a.tanggal ∧ b.waktu ≤ a.waktu)))

/-- The key of a cached `get_transactions_by_date` call: its argument tuple. -/
structure TransKey where
  from_date : String
  to_date : String
  departemen : Option String
  status_scan : Option String
deriving Repr, DecidableEq

/-- Evaluate a cached transactions query directly against the store. -/
def evalTransKey (k : TransKey) (db : DB) : List TransRow :=
  getTransactionsByDateDB k.from_date k.to_date k.departemen k.status_scan db

/-- Association-list lookup by decidable equality on the key. -/
def lookupKey {κ β : Type} [DecidableEq κ] (k : κ) : List (κ × β) → Option β
  | [] => none
  | (k1, v) :: rest => if k1 = k then some v else lookupKey k rest

/-- The `st.cache_data` memoization state: one entry per read path and
argument tuple.  A `none`-valued entry records a cached "not found" result. -/
structure Cache where
  trans : List (TransKey × List TransRow)
  stafOne : List (String × Option Staf)
  stafAll : Option (List Staf)
  depts : Option (List String)
  menu : List (String × Option Menu)
deriving Repr, DecidableEq

/-- The cache right after `clear_all_caches()` (`st.cache_data.clear()`). -/
def Cache.empty : Cache := ⟨[], [], none, none, []⟩

/-- The whole in-process system: store plus read cache. -/
structure Sys where
  db : DB
  cache : Cache
deriving Repr, DecidableEq

/-- Cached `get_transactions_by_date`. -/
def cachedGetTrans (sys : Sys) (k : TransKey) : List TransRow × Sys :=
  match lookupKey k sys.cache.trans with
  | some v => (v, sys)
  | none =>
    let v := evalTransKey k sys.db
    (v, { sys with cache := { sys.cache with trans := (k, v) :: sys.cache.trans } })

/-- Cached `get_staf_data(barcode_id)`. -/
def cachedGetStaf (sys : Sys) (b : String) : Option Staf × Sys :=
  match lookupKey b sys.cache.stafOne with
  | some v => (v, sys)
  | none =>
    let v := getStafDataDB b sys.db
    (v, { sys with cache := { sys.cache with stafOne := (b, v) :: sys.cache.stafOne } })

/-- Cached `get_staf_data()` (all staff). -/
def cachedGetStafAll (sys : Sys) : List Staf × Sys :=
  match sys.cache.stafAll with
  | some v => (v, sys)
  | none =>
    let v := getStafAllDB sys.db
    (v, { sys with cache := { sys.cache with stafAll := some v } })

/-- Cached `get_departemen_data()`. -/
def cachedGetDepts (sys : Sys) : List String × Sys :=
  match sys.cache.depts with
  | some v => (v, sys)
  | none =>
    let v := getDepartemenDB sys.db
    (v, { sys with cache := { sys.cache with depts := some v } })

/-- Cached `get_menu_today(date_str)`. -/
def cachedGetMenu (sys : Sys) (d : String) : Option Menu × Sys :=
  match lookupKey d sys.cache.menu with
  | some v => (v, sys)
  | none =>
    let v := getMenuTodayDB d sys.db
    (v, { sys with cache := { sys.cache with menu := (d, v) :: sys.cache.menu } })

/-- The guarded decrement of `record_transaction`:
`UPDATE staf SET jatah_tersisa = jatah_tersisa - 1
 WHERE barcode_id = ? AND jatah_tersisa > 0`. -/
def decrementJatah (barcode_id : String) (l : List Staf) : List Staf :=
  l.map (fun s =>
    if s.barcode_id = barcode_id ∧ 0 < s.jatah_tersisa then
      { s with jatah_tersisa := s.jatah_tersisa - 1 }
    else s)

/-- `record_transaction` on the store: insert one `transaksi` row, then
decrement the quota when and only when the status is "SUKSES".
The date and time stamps are passed explicitly. -/
def recordTransactionDB (barcode_id staff_nama menu : String) (harga : Int)
    (status tanggal waktu : String) (db : DB) : DB :=
  let db1 := { db with transaksi :=
    db.transaksi ++ [⟨barcode_id, tanggal, waktu, menu, harga, staff_nama, status⟩] }
  if status = "SUKSES" then { db1 with staf := decrementJatah barcode_id db1.staf }
  else db1

/-- `record_transaction` on the system: commit, then `clear_all_caches()`. -/
def recordTransactionSys (barcode_id staff_nama menu : String) (harga : Int)
    (status tanggal waktu : String) (sys : Sys) : Sys :=
  ⟨recordTransactionDB barcode_id staff_nama menu harga status tanggal waktu sys.db,
   Cache.empty⟩

/-- `reset_jatah_harian`: `UPDATE staf SET jatah_tersisa = jatah_harian`
(a single bulk statement over every row). -/
def resetJatahHarianDB (db : DB) : DB :=
  { db with staf := db.staf.map (fun s => { s with jatah_tersisa := s.jatah_harian }) }

/-- `save_menu_today`: `INSERT OR REPLACE INTO menu_harian` keyed by the
UNIQUE `tanggal` — the conflicting row is replaced. -/
def saveMenuTodayDB (date_str : String) (m : Menu) (db : DB) : DB :=
  { db with menu_harian := (date_str, m) :: db.menu_harian.filter (fun p => p.1 != date_str) }

/-- Duplicate test behind the `sqlite3.IntegrityError` of the add-staff INSERT. -/
def stafExists (b : String) (db : DB) : Bool :=
  db.staf.any (fun s => s.barcode_id == b)

/-- The add-staff INSERT (form path): append a fresh row with
`jatah_tersisa = jatah_harian = jatah`. -/
def tambahStafDB (b n d : String) (j : Int) (db : DB) : DB :=
  { db with staf := db.staf ++ [⟨b, n, d, j, j⟩] }

/-- The edit-staff UPDATE: set `nama, departemen, jatah_harian` and
`jatah_tersisa` (both quota fields to the edited value) on the matching row. -/
def updateStafDB (b n d : String) (j : Int) (db : DB) : DB :=
  { db with staf := db.staf.map (fun s =>
      if s.barcode_id = b then
        { s with nama := n, departemen := d, jatah_harian := j, jatah_tersisa := j }
      else s) }

/-- The delete-staff DELETE: remove every row with the barcode. -/
def deleteStafDB (b : String) (db : DB) : DB :=
  { db with staf := db.staf.filter (fun s => s.barcode_id != b) }

/-- Duplicate test behind the `sqlite3.IntegrityError` of the add-department INSERT. -/
def deptExists (n : String) (db : DB) : Bool :=
  db.departemen.contains n

/-- The add-department INSERT. -/
def tambahDeptDB (n : String) (db : DB) : DB :=
  { db with departemen := db.departemen ++ [n] }

/-- One CSV import row, as the four required columns' raw cell texts. -/
structure CsvRow where
  barcode_id : String
  nama : String
  departemen : String
  jatah_harian : String
deriving Repr, DecidableEq

/-- Python `str.strip()`: remove surrounding whitespace.  (Implemented over
the character list so that it evaluates by kernel reduction.) -/
def pyStrip (x : String) : String :=
  ((x.data.dropWhile Char.isWhitespace).reverse.dropWhile Char.isWhitespace).reverse.asString

/-- Decimal digit accumulation for `pyInt`; any non-digit raises. -/
def digitsVal (cs : List Char) (acc : Nat) : Option Nat :=
  match cs with
  | [] => some acc
  | c :: rest => if c.isDigit then digitsVal rest (acc * 10 + (c.toNat - 48)) else none

/-- Python `int(x)` on a cell: surrounding whitespace is ignored, an
optional sign followed by decimal digits is accepted, anything else raises
`ValueError` (here: `none`). -/
def pyInt (x : String) : Option Int :=
  match (pyStrip x).data with
  | [] => none
  | '+' :: rest => if rest.isEmpty then none else (digitsVal rest 0).map (fun n => (n : Int))
  | '-' :: rest => if rest.isEmpty then none else (digitsVal rest 0).map (fun n => -(n : Int))
  | cs => (digitsVal cs 0).map (fun n => (n : Int))

/-- `INSERT OR REPLACE INTO staf` of the CSV import: the conflicting row is
replaced and `jatah_tersisa` is set to the fresh `jatah_harian`. -/
def upsertStafDB (b n d : String) (j : Int) (db : DB) : DB :=
  { db with staf := db.staf.filter (fun s => s.barcode_id != b) ++ [⟨b, n, d, j, j⟩] }

/-- `INSERT OR IGNORE INTO departemen` of the CSV import. -/
def insertDeptIfAbsent (d : String) (db : DB) : DB :=
  if db.departemen.contains d then db else { db with departemen := db.departemen ++ [d] }

/-- One loop iteration of `import_staf_from_csv`: strip the three text
columns, parse the quota, validate, then upsert the staff row and its
department; the accumulator is `(db, success_count, fail_count)`. -/
def importRow (acc : DB × Nat × Nat) (row : CsvRow) : DB × Nat × Nat :=
  let barcode := pyStrip row.barcode_id
  let nama := pyStrip row.nama
  let dept := pyStrip row.departemen
  match pyInt row.jatah_harian with
  | none => (acc.1, acc.2.1, acc.2.2 + 1)
  | some jatah =>
    if barcode = "" ∨ nama = "" ∨ dept = "" ∨ jatah ≤ 0 then
      (acc.1, acc.2.1, acc.2.2 + 1)
    else
      (insertDeptIfAbsent dept (upsertStafDB barcode nama dept jatah acc.1),
       acc.2.1 + 1, acc.2.2)

/-- `import_staf_from_csv` over a row table whose required columns are present. -/
def importStafFromCsv (rows : List CsvRow) (db : DB) : DB × Nat × Nat :=
  rows.foldl importRow (db, 0, 0)

/-- The write operations of the application (each runs `clear_all_caches()`
after a successful commit). -/
inductive WriteOp where
  | record (barcode_id staff_nama menu : String) (harga : Int) (status tanggal waktu : String)
  | reset
  | saveMenu (date_str : String) (m : Menu)
  | addStaf (b n d : String) (j : Int)
  | updateStaf (b n d : String) (j : Int)
  | deleteStaf (b : String)
  | addDept (n : String)
  | importCsv (rows : List CsvRow)
deriving Repr, DecidableEq

/-- Apply a write operation to the system.  Every committed write clears the
whole cache; the duplicate-rejected add paths (`IntegrityError`) commit
nothing and clear nothing. -/
def applyWrite (w : WriteOp) (sys : Sys) : Sys :=
  match w with
  | .record b n m h s t wk => recordTransactionSys b n m h s t wk sys
  | .reset => ⟨resetJatahHarianDB sys.db, Cache.empty⟩
  | .saveMenu d m => ⟨saveMenuTodayDB d m sys.db, Cache.empty⟩
  | .addStaf b n d j =>
    if stafExists b sys.db then sys else ⟨tambahStafDB b n d j sys.db, Cache.empty⟩
  | .updateStaf b n d j => ⟨updateStafDB b n d j sys.db, Cache.empty⟩
  | .deleteStaf b => ⟨deleteStafDB b sys.db, Cache.empty⟩
  | .addDept n =>
    if deptExists n sys.db then sys else ⟨tambahDeptDB n sys.db, Cache.empty⟩
  | .importCsv rows => ⟨(importStafFromCsv rows sys.db).1, Cache.empty⟩

/-- What `scan_page` reports for one processed scan. -/
inductive ScanResult where
  | menuNotSet
  | noInput
  | notRegistered
  | adminRejected
  | quotaExhausted (nama : String)
  | success (nama departemen : String) (jatah_tersisa jatah_harian : Int)
  | internalError
deriving Repr, DecidableEq

/-- `scan_page`: resolve today's menu (refuse everything if absent), then for
a submitted non-empty barcode look up the staff row and run the four-way
branch of the source; the success branch re-reads the staff row after the
write (through the freshly cleared cache) to report the remaining quota. -/
def scanPage (barcode today waktu : String) (sys : Sys) : ScanResult × Sys :=
  match cachedGetMenu sys today with
  | (none, sys1) => (.menuNotSet, sys1)
  | (some m, sys1) =>
    if barcode = "" then (.noInput, sys1)
    else
      match cachedGetStaf sys1 barcode with
      | (none, sys2) =>
        (.notRegistered,
         recordTransactionSys barcode "N/A" m.menu m.harga "GAGAL" today waktu sys2)
      | (some s, sys2) =>
        if s.barcode_id = ADMIN_BARCODE_ID then
          (.adminRejected,
           recordTransactionSys barcode s.nama m.menu m.harga "GAGAL" today waktu sys2)
        else if s.jatah_tersisa ≤ 0 then
          (.quotaExhausted s.nama,
           recordTransactionSys barcode s.nama m.menu m.harga "GAGAL" today waktu sys2)
        else
          match cachedGetStaf
              (recordTransactionSys barcode s.nama m.menu m.harga "SUKSES" today waktu sys2)
              barcode with
          | (some s2, sys4) =>
            (.success s2.nama s2.departemen s2.jatah_tersisa s2.jatah_harian, sys4)
          | (none, sys4) => (.internalError, sys4)

/-- A cache state is coherent when every entry holds exactly the value the
corresponding read would compute from the current store.  Every reachable
state of the application is coherent: reads fill entries from the store and
every committed write clears the cache. -/
def Coherent (sys : Sys) : Prop :=
  (∀ k v, lookupKey k sys.cache.trans = some v → v = evalTransKey k sys.db) ∧
  (∀ b v, lookupKey b sys.cache.stafOne = some v → v = getStafDataDB b sys.db) ∧
  (∀ v, sys.cache.stafAll = some v → v = getStafAllDB sys.db) ∧
  (∀ v, sys.cache.depts = some v → v = getDepartemenDB sys.db) ∧
  (∀ d v, lookupKey d sys.cache.menu = some v → v = getMenuTodayDB d sys.db)

lemma coherent_empty (db : DB) : Coherent ⟨db, Cache.empty⟩ := by
  refine ⟨?_, ?_, ?_, ?_, ?_⟩
  · intro k v h; simp [Cache.empty, lookupKey] at h
  · intro b v h; simp [Cache.empty, lookupKey] at h
  · intro v h; simp [Cache.empty] at h
  · intro v h; simp [Cache.empty] at h
  · intro d v h; simp [Cache.empty, lookupKey] at h

lemma cachedGetMenu_fst (sys : Sys) (d : String) (h : Coherent sys) :
    (cachedGetMenu sys d).1 = getMenuTodayDB d sys.db := by
  unfold cachedGetMenu
  rcases hl : lookupKey d sys.cache.menu with _ | v
  · simp [hl]
  · simpa [hl] using h.2.2.2.2 d v hl

lemma cachedGetMenu_db (sys : Sys) (d : String) :
    (cachedGetMenu sys d).2.db = sys.db := by
  unfold cachedGetMenu
  rcases hl : lookupKey d sys.cache.menu with _ | v <;> simp [hl]

lemma cachedGetMenu_coh (sys : Sys) (d : String) (h : Coherent sys) :
    Coherent (cachedGetMenu sys d).2 := by
  unfold cachedGetMenu
  rcases hl : lookupKey d sys.cache.menu with _ | v
  · simp only [hl]
    obtain ⟨h1, h2, h3, h4, h5⟩ := h
    refine ⟨h1, h2, h3, h4, ?_⟩
    intro d2 v2 hv
    simp only [lookupKey] at hv
    split at hv
    · next heq =>
      subst heq
      simpa using hv.symm
    · exact h5 d2 v2 hv
  · simpa [hl] using h

lemma cachedGetStaf_fst (sys : Sys) (b : String) (h : Coherent sys) :
    (cachedGetStaf sys b).1 = getStafDataDB b sys.db := by
  unfold cachedGetStaf
  rcases hl : lookupKey b sys.cache.stafOne with _ | v
  · simp [hl]
  · simpa [hl] using h.2.1 b v hl

lemma cachedGetStaf_db (sys : Sys) (b : String) :
    (cachedGetStaf sys b).2.db = sys.db := by
  unfold cachedGetStaf
  rcases hl : lookupKey b sys.cache.stafOne with _ | v <;> simp [hl]

lemma cachedGetStafAll_fst (sys : Sys) (h : Coherent sys) :
    (cachedGetStafAll sys).1 = getStafAllDB sys.db := by
  unfold cachedGetStafAll
  rcases hl : sys.cache.stafAll with _ | v
  · simp [hl]
  · simpa [hl] using h.2.2.1 v hl

lemma cachedGetDepts_fst (sys : Sys) (h : Coherent sys) :
    (cachedGetDepts sys).1 = getDepartemenDB sys.db := by
  unfold cachedGetDepts
  rcases hl : sys.cache.depts with _ | v
  · simp [hl]
  · simpa [hl] using h.2.2.2.1 v hl

lemma cachedGetTrans_fst (sys : Sys) (k : TransKey) (h : Coherent sys) :
    (cachedGetTrans sys k).1 = evalTransKey k sys.db := by
  unfold cachedGetTrans
  rcases hl : lookupKey k sys.cache.trans with _ | v
  · simp [hl]
  · simpa [hl] using h.1 k v hl

lemma applyWrite_coherent (w : WriteOp) (sys : Sys) (h : Coherent sys) :
    Coherent (applyWrite w sys) := by
  cases w with
  | record b n m hg s t wk => exact coherent_empty _
  | reset => exact coherent_empty _
  | saveMenu d m => exact coherent_empty _
  | addStaf b n d j =>
    by_cases hd : stafExists b sys.db
    · simpa [applyWrite, hd] using h
    · simpa [applyWrite, hd] using coherent_empty (tambahStafDB b n d j sys.db)
  | updateStaf b n d j => exact coherent_empty _
  | deleteStaf b => exact coherent_empty _
  | addDept n =>
    by_cases hd : deptExists n sys.db
    · simpa [applyWrite, hd] using h
    · simpa [applyWrite, hd] using coherent_empty (tambahDeptDB n sys.db)
  | importCsv rows => exact coherent_empty _

lemma find?_cons_eq (p : Staf → Bool) (a : Staf) (t : List Staf) :
    (a :: t).find? p = if p a then some a else t.find? p := by
  rw [List.find?_cons]
  cases hpa : p a <;> simp [hpa]

lemma find?_decrementJatah (b : String) (s : Staf) :
    ∀ l : List Staf, l.find? (fun r => r.barcode_id == b) = some s → 0 < s.jatah_tersisa →
      (decrementJatah b l).find? (fun r => r.barcode_id == b)
        = some { s with jatah_tersisa := s.jatah_tersisa - 1 }
  | [], h, _ => by simp at h
  | a :: t, h, hq => by
    rw [show decrementJatah b (a :: t)
        = (if a.barcode_id = b ∧ 0 < a.jatah_tersisa then
            { a with jatah_tersisa := a.jatah_tersisa - 1 } else a) :: decrementJatah b t
       from rfl]
    rw [find?_cons_eq] at h
    by_cases hab : a.barcode_id = b
    · rw [if_pos (show ((fun r : Staf => r.barcode_id == b) a) = true from by simp [hab])] at h
      have hs : a = s := by injection h
      subst hs
      rw [if_pos ⟨hab, hq⟩, find?_cons_eq,
        if_pos (show ((fun r : Staf => r.barcode_id == b)
            { a with jatah_tersisa := a.jatah_tersisa - 1 }) = true from by simp [hab])]
    · rw [if_neg (show ¬ ((fun r : Staf => r.barcode_id == b) a) = true from by simp [hab])] at h
      rw [if_neg (fun hc : a.barcode_id = b ∧ 0 < a.jatah_tersisa => hab hc.1),
        find?_cons_eq,
        if_neg (show ¬ ((fun r : Staf => r.barcode_id == b) a) = true from by simp [hab])]
      exact find?_decrementJatah b s t h hq

lemma barcode_of_getStafData (b : String) (db : DB) (s : Staf)
    (h : getStafDataDB b db = some s) : s.barcode_id = b := by
  have := List.find?_some h
  exact eq_of_beq this

/-- C1: a scan of a registered, non-admin barcode with positive remaining
quota, with today's menu configured, appends exactly one SUCCESS transaction
carrying the menu's name and price, decrements that staff's remaining quota
by exactly one (all other fields kept), and reports the post-decrement
remaining quota. -/
theorem scan_success_records_and_decrements
    (sys : Sys) (barcode today waktu : String) (m : Menu) (s : Staf)
    (hco : Coherent sys)
    (hb : barcode ≠ "")
    (hm : getMenuTodayDB today sys.db = some m)
    (hs : getStafDataDB barcode sys.db = some s)
    (hadm : barcode ≠ ADMIN_BARCODE_ID)
    (hq : 0 < s.jatah_tersisa) :
    (scanPage barcode today waktu sys).2.db.transaksi
        = sys.db.transaksi ++ [⟨barcode, today, waktu, m.menu, m.harga, s.nama, "SUKSES"⟩] ∧
    getStafDataDB barcode (scanPage barcode today waktu sys).2.db
        = some { s with jatah_tersisa := s.jatah_tersisa - 1 } ∧
    (scanPage barcode today waktu sys).1
        = ScanResult.success s.nama s.departemen (s.jatah_tersisa - 1) s.jatah_harian := by
  have hsb : s.barcode_id = barcode := barcode_of_getStafData barcode sys.db s hs
  have hfind := find?_decrementJatah barcode s sys.db.staf hs hq
  rcases hsc : scanPage barcode today waktu sys with ⟨res, sys5⟩
  dsimp only
  unfold scanPage at hsc
  split at hsc
  · next sys1 heq =>
    exfalso
    have h1 := cachedGetMenu_fst sys today hco
    rw [heq, hm] at h1
    simp at h1
  · next m1 sys1 heq =>
    have h1 := cachedGetMenu_fst sys today hco
    rw [heq, hm] at h1
    have hm1 : m1 = m := by injection h1
    subst m1
    have hco1 := cachedGetMenu_coh sys today hco
    have hdb1 := cachedGetMenu_db sys today
    rw [heq] at hco1 hdb1
    dsimp only at hco1 hdb1
    rw [if_neg hb] at hsc
    split at hsc
    · next sys2 heq2 =>
      exfalso
      have h2 := cachedGetStaf_fst sys1 barcode hco1
      rw [heq2, hdb1, hs] at h2
      simp at h2
    · next s1 sys2 heq2 =>
      have h2 := cachedGetStaf_fst sys1 barcode hco1
      rw [heq2, hdb1, hs] at h2
      have hs1 : s1 = s := by injection h2
      subst s1
      have hdb2 := cachedGetStaf_db sys1 barcode
      rw [heq2] at hdb2
      dsimp only at hdb2
      rw [if_neg (by rw [hsb]; exact hadm)] at hsc
      rw [if_neg (not_le.mpr hq)] at hsc
      have hdb3 : recordTransactionDB barcode s.nama m.menu m.harga "SUKSES" today waktu sys2.db
          = { sys.db with
              staf := decrementJatah barcode sys.db.staf,
              transaksi := sys.db.transaksi
                ++ [⟨barcode, today, waktu, m.menu, m.harga, s.nama, "SUKSES"⟩] } := by
        rw [hdb2, hdb1]
        simp [recordTransactionDB]
      rw [recordTransactionSys, hdb3] at hsc
      have hread : cachedGetStaf
          ⟨{ sys.db with
              staf := decrementJatah barcode sys.db.staf,
              transaksi := sys.db.transaksi
                ++ [⟨barcode, today, waktu, m.menu, m.harga, s.nama, "SUKSES"⟩] },
            Cache.empty⟩ barcode
          = (some { s with jatah_tersisa := s.jatah_tersisa - 1 },
             ⟨{ sys.db with
                 staf := decrementJatah barcode sys.db.staf,
                 transaksi := sys.db.transaksi
                   ++ [⟨barcode, today, waktu, m.menu, m.harga, s.nama, "SUKSES"⟩] },
               ⟨[], [(barcode, some { s with jatah_tersisa := s.jatah_tersisa - 1 })],
                none, none, []⟩⟩) := by
        simp only [cachedGetStaf, Cache.empty, lookupKey, getStafDataDB]
        rw [show (List.find? (fun r => r.barcode_id == barcode)
              (decrementJatah barcode sys.db.staf))
            = some { s with jatah_tersisa := s.jatah_tersisa - 1 } from hfind]
      rw [hread] at hsc
      have hres : res = ScanResult.success s.nama s.departemen
          (s.jatah_tersisa - 1) s.jatah_harian := by
        have := congrArg Prod.fst hsc
        simpa using this.symm
      have hsys5 : sys5.db
          = { sys.db with
              staf := decrementJatah barcode sys.db.staf,
              transaksi := sys.db.transaksi
                ++ [⟨barcode, today, waktu, m.menu, m.harga, s.nama, "SUKSES"⟩] } := by
        have := congrArg Prod.snd hsc
        simp at this
        rw [← this]
      refine ⟨?_, ?_, ?_⟩
      · rw [hsys5]
      · rw [hsys5]
        show List.find? (fun r => r.barcode_id == barcode)
            (decrementJatah barcode sys.db.staf) = _
        exact hfind
      · exact hres

theorem scan_success_witness :
    (scanPage "1001" "2025-01-01" "12:00:00"
        ⟨⟨["HRD"], [("2025-01-01", ⟨"Nasi Goreng", 15000⟩)],
          [⟨"1001", "Budi", "HRD", 1, 1⟩], []⟩, Cache.empty⟩).2.db.transaksi
      = [] ++ [⟨"1001", "2025-01-01", "12:00:00", "Nasi Goreng", 15000, "Budi", "SUKSES"⟩] :=
  (scan_success_records_and_decrements _ "1001" "2025-01-01" "12:00:00"
      ⟨"Nasi Goreng", 15000⟩ ⟨"1001", "Budi", "HRD", 1, 1⟩
      (coherent_empty _) (by decide) (by decide) (by decide) (by decide) (by decide)).1

lemma recordTransactionDB_gagal (b n m : String) (h : Int) (t wk : String) (db : DB) :
    recordTransactionDB b n m h "GAGAL" t wk db
      = { db with transaksi := db.transaksi ++ [⟨b, t, wk, m, h, n, "GAGAL"⟩] } := by
  simp [recordTransactionDB]

lemma recordTransactionSys_gagal (b n m : String) (h : Int) (t wk : String) (sys : Sys) :
    recordTransactionSys b n m h "GAGAL" t wk sys
      = ⟨{ sys.db with transaksi := sys.db.transaksi ++ [⟨b, t, wk, m, h, n, "GAGAL"⟩] },
         Cache.empty⟩ := by
  unfold recordTransactionSys
  rw [recordTransactionDB_gagal]

/-- C7: when no menu is configured for the date, the scan is refused before
any branch runs: the store is completely unchanged (no transaction row, no
staff change) and the "menu not set" outcome is reported. -/
theorem scan_no_menu_no_write (sys : Sys) (barcode today waktu : String)
    (hco : Coherent sys)
    (hm : getMenuTodayDB today sys.db = none) :
    (scanPage barcode today waktu sys).2.db = sys.db ∧
    (scanPage barcode today waktu sys).1 = ScanResult.menuNotSet := by
  rcases hsc : scanPage barcode today waktu sys with ⟨res, sys5⟩
  dsimp only
  unfold scanPage at hsc
  split at hsc
  · next sys1 heq =>
    have h1 := cachedGetMenu_db sys today
    rw [heq] at h1
    dsimp only at h1
    have h2 : res = ScanResult.menuNotSet ∧ sys5 = sys1 := by
      have ha := congrArg Prod.fst hsc
      have hb2 := congrArg Prod.snd hsc
      exact ⟨ha.symm, hb2.symm⟩
    rw [h2.2, h1, h2.1]
    exact ⟨rfl, rfl⟩
  · next m1 sys1 heq =>
    exfalso
    have h1 := cachedGetMenu_fst sys today hco
    rw [heq, hm] at h1
    simp at h1

theorem scan_no_menu_witness :
    (scanPage "1001" "2025-01-01" "12:00:00"
        ⟨⟨["HRD"], [], [⟨"1001", "Budi", "HRD", 1, 1⟩], []⟩, Cache.empty⟩).2.db
      = ⟨["HRD"], [], [⟨"1001", "Budi", "HRD", 1, 1⟩], []⟩ :=
  (scan_no_menu_no_write ⟨⟨["HRD"], [], [⟨"1001", "Budi", "HRD", 1, 1⟩], []⟩, Cache.empty⟩
      "1001" "2025-01-01" "12:00:00" (coherent_empty _) (by decide)).1

/-- C4: a scan of a barcode matching no staff record, with today's menu
configured, appends exactly one FAILURE transaction whose staff-name
snapshot is "N/A" and whose menu name and price come from today's menu,
and modifies no staff row. -/
theorem scan_unregistered_failure (sys : Sys) (barcode today waktu : String) (m : Menu)
    (hco : Coherent sys)
    (hb : barcode ≠ "")
    (hm : getMenuTodayDB today sys.db = some m)
    (hs : getStafDataDB barcode sys.db = none) :
    (scanPage barcode today waktu sys).2.db.transaksi
        = sys.db.transaksi ++ [⟨barcode, today, waktu, m.menu, m.harga, "N/A", "GAGAL"⟩] ∧
    (scanPage barcode today waktu sys).2.db.staf = sys.db.staf ∧
    (scanPage barcode today waktu sys).1 = ScanResult.notRegistered := by
  rcases hsc : scanPage barcode today waktu sys with ⟨res, sys5⟩
  dsimp only
  unfold scanPage at hsc
  split at hsc
  · next sys1 heq =>
    exfalso
    have h1 := cachedGetMenu_fst sys today hco
    rw [heq, hm] at h1
    simp at h1
  · next m1 sys1 heq =>
    have h1 := cachedGetMenu_fst sys today hco
    rw [heq, hm] at h1
    have hm1 : m1 = m := by injection h1
    subst m1
    have hco1 := cachedGetMenu_coh sys today hco
    have hdb1 := cachedGetMenu_db sys today
    rw [heq] at hco1 hdb1
    dsimp only at hco1 hdb1
    rw [if_neg hb] at hsc
    split at hsc
    · next sys2 heq2 =>
      have hdb2 := cachedGetStaf_db sys1 barcode
      rw [heq2] at hdb2
      dsimp only at hdb2
      rw [recordTransactionSys_gagal] at hsc
      have ha := congrArg Prod.fst hsc
      have hb2 := congrArg Prod.snd hsc
      dsimp only at ha hb2
      rw [← hb2, ← ha, hdb2, hdb1]
      exact ⟨rfl, rfl, rfl⟩
    · next s1 sys2 heq2 =>
      exfalso
      have h2 := cachedGetStaf_fst sys1 barcode hco1
      rw [heq2, hdb1, hs] at h2
      simp at h2

theorem scan_unregistered_witness :
    (scanPage "2002" "2025-01-01" "12:00:00"
        ⟨⟨["HRD"], [("2025-01-01", ⟨"Nasi Goreng", 15000⟩)],
          [⟨"1001", "Budi", "HRD", 1, 1⟩], []⟩, Cache.empty⟩).2.db.transaksi
      = [] ++ [⟨"2002", "2025-01-01", "12:00:00", "Nasi Goreng", 15000, "N/A", "GAGAL"⟩] :=
  (scan_unregistered_failure
      ⟨⟨["HRD"], [("2025-01-01", ⟨"Nasi Goreng", 15000⟩)],
        [⟨"1001", "Budi", "HRD", 1, 1⟩], []⟩, Cache.empty⟩
      "2002" "2025-01-01" "12:00:00" ⟨"Nasi Goreng", 15000⟩
      (coherent_empty _) (by decide) (by decide) (by decide)).1

/-- C5: a scan of a registered barcode whose remaining quota is 0, with
today's menu configured, appends exactly one FAILURE transaction (with that
staff's name snapshot and today's menu name and price) and leaves the staff
table — in particular `jatah_tersisa` — unchanged. -/
theorem scan_exhausted_failure (sys : Sys) (barcode today waktu : String) (m : Menu) (s : Staf)
    (hco : Coherent sys)
    (hb : barcode ≠ "")
    (hm : getMenuTodayDB today sys.db = some m)
    (hs : getStafDataDB barcode sys.db = some s)
    (hq : s.jatah_tersisa = 0) :
    (scanPage barcode today waktu sys).2.db.transaksi
        = sys.db.transaksi ++ [⟨barcode, today, waktu, m.menu, m.harga, s.nama, "GAGAL"⟩] ∧
    (scanPage barcode today waktu sys).2.db.staf = sys.db.staf := by
  rcases hsc : scanPage barcode today waktu sys with ⟨res, sys5⟩
  dsimp only
  unfold scanPage at hsc
  split at hsc
  · next sys1 heq =>
    exfalso
    have h1 := cachedGetMenu_fst sys today hco
    rw [heq, hm] at h1
    simp at h1
  · next m1 sys1 heq =>
    have h1 := cachedGetMenu_fst sys today hco
    rw [heq, hm] at h1
    have hm1 : m1 = m := by injection h1
    subst m1
    have hco1 := cachedGetMenu_coh sys today hco
    have hdb1 := cachedGetMenu_db sys today
    rw [heq] at hco1 hdb1
    dsimp only at hco1 hdb1
    rw [if_neg hb] at hsc
    split at hsc
    · next sys2 heq2 =>
      exfalso
      have h2 := cachedGetStaf_fst sys1 barcode hco1
      rw [heq2, hdb1, hs] at h2
      simp at h2
    · next s1 sys2 heq2 =>
      have h2 := cachedGetStaf_fst sys1 barcode hco1
      rw [heq2, hdb1, hs] at h2
      have hs1 : s1 = s := by injection h2
      subst s1
      have hdb2 := cachedGetStaf_db sys1 barcode
      rw [heq2] at hdb2
      dsimp only at hdb2
      by_cases hadm : s.barcode_id = ADMIN_BARCODE_ID
      · rw [if_pos hadm, recordTransactionSys_gagal] at hsc
        have hb2 := congrArg Prod.snd hsc
        dsimp only at hb2
        rw [← hb2, hdb2, hdb1]
        exact ⟨rfl, rfl⟩
      · rw [if_neg hadm, if_pos (le_of_eq hq), recordTransactionSys_gagal] at hsc
        have hb2 := congrArg Prod.snd hsc
        dsimp only at hb2
        rw [← hb2, hdb2, hdb1]
        exact ⟨rfl, rfl⟩

theorem scan_exhausted_witness :
    (scanPage "1001" "2025-01-01" "12:00:00"
        ⟨⟨["HRD"], [("2025-01-01", ⟨"Nasi Goreng", 15000⟩)],
          [⟨"1001", "Budi", "HRD", 1, 0⟩], []⟩, Cache.empty⟩).2.db.staf
      = [⟨"1001", "Budi", "HRD", 1, 0⟩] :=
  (scan_exhausted_failure
      ⟨⟨["HRD"], [("2025-01-01", ⟨"Nasi Goreng", 15000⟩)],
        [⟨"1001", "Budi", "HRD", 1, 0⟩], []⟩, Cache.empty⟩
      "1001" "2025-01-01" "12:00:00" ⟨"Nasi Goreng", 15000⟩ ⟨"1001", "Budi", "HRD", 1, 0⟩
      (coherent_empty _) (by decide) (by decide) (by decide) (by decide)).2

/-- C6: a scan of the reserved admin barcode "9999", with today's menu
configured, appends exactly one FAILURE transaction (whatever name snapshot
the branch produces) and performs no quota decrement — the staff table is
unchanged — regardless of the admin record's quota value or even of its
existence. -/
theorem scan_admin_failure (sys : Sys) (today waktu : String) (m : Menu)
    (hco : Coherent sys)
    (hm : getMenuTodayDB today sys.db = some m) :
    ∃ snap : String,
      (scanPage ADMIN_BARCODE_ID today waktu sys).2.db.transaksi
          = sys.db.transaksi
            ++ [⟨ADMIN_BARCODE_ID, today, waktu, m.menu, m.harga, snap, "GAGAL"⟩] ∧
      (scanPage ADMIN_BARCODE_ID today waktu sys).2.db.staf = sys.db.staf := by
  rcases hsc : scanPage ADMIN_BARCODE_ID today waktu sys with ⟨res, sys5⟩
  dsimp only
  unfold scanPage at hsc
  split at hsc
  · next sys1 heq =>
    exfalso
    have h1 := cachedGetMenu_fst sys today hco
    rw [heq, hm] at h1
    simp at h1
  · next m1 sys1 heq =>
    have h1 := cachedGetMenu_fst sys today hco
    rw [heq, hm] at h1
    have hm1 : m1 = m := by injection h1
    subst m1
    have hco1 := cachedGetMenu_coh sys today hco
    have hdb1 := cachedGetMenu_db sys today
    rw [heq] at hco1 hdb1
    dsimp only at hco1 hdb1
    rw [if_neg (show ADMIN_BARCODE_ID ≠ "" from by decide)] at hsc
    split at hsc
    · next sys2 heq2 =>
      have hdb2 := cachedGetStaf_db sys1 ADMIN_BARCODE_ID
      rw [heq2] at hdb2
      dsimp only at hdb2
      rw [recordTransactionSys_gagal] at hsc
      have hb2 := congrArg Prod.snd hsc
      dsimp only at hb2
      refine ⟨"N/A", ?_, ?_⟩ <;> rw [← hb2, hdb2, hdb1]
    · next s1 sys2 heq2 =>
      have h2 := cachedGetStaf_fst sys1 ADMIN_BARCODE_ID hco1
      rw [heq2] at h2
      dsimp only at h2
      have hadm : s1.barcode_id = ADMIN_BARCODE_ID :=
        barcode_of_getStafData ADMIN_BARCODE_ID sys1.db s1 h2.symm
      have hdb2 := cachedGetStaf_db sys1 ADMIN_BARCODE_ID
      rw [heq2] at hdb2
      dsimp only at hdb2
      rw [if_pos hadm, recordTransactionSys_gagal] at hsc
      have hb2 := congrArg Prod.snd hsc
      dsimp only at hb2
      refine ⟨s1.nama, ?_, ?_⟩ <;> rw [← hb2, hdb2, hdb1]

theorem scan_admin_witness :
    ∃ snap : String,
      (scanPage ADMIN_BARCODE_ID "2025-01-01" "12:00:00"
          ⟨⟨["ADMIN"], [("2025-01-01", ⟨"Nasi Goreng", 15000⟩)],
            [⟨"9999", "Administrator", "ADMIN", 999, 999⟩], []⟩, Cache.empty⟩).2.db.transaksi
        = [] ++ [⟨ADMIN_BARCODE_ID, "2025-01-01", "12:00:00", "Nasi Goreng", 15000,
                  snap, "GAGAL"⟩] ∧
      (scanPage ADMIN_BARCODE_ID "2025-01-01" "12:00:00"
          ⟨⟨["ADMIN"], [("2025-01-01", ⟨"Nasi Goreng", 15000⟩)],
            [⟨"9999", "Administrator", "ADMIN", 999, 999⟩], []⟩, Cache.empty⟩).2.db.staf
        = [⟨"9999", "Administrator", "ADMIN", 999, 999⟩] :=
  scan_admin_failure
    ⟨⟨["ADMIN"], [("2025-01-01", ⟨"Nasi Goreng", 15000⟩)],
      [⟨"9999", "Administrator", "ADMIN", 999, 999⟩], []⟩, Cache.empty⟩
    "2025-01-01" "12:00:00" ⟨"Nasi Goreng", 15000⟩ (coherent_empty _) (by decide)

/-- C3: after any write operation, every one of the four cached read paths
observes the post-write store (a committed write leaves the cache empty, a
duplicate-rejected add commits nothing, so coherent cached entries are still
exact); moreover whenever the operation changed the store at all, the whole
cache was invalidated. -/
theorem write_ops_invalidate_cache (w : WriteOp) (sys : Sys) (hco : Coherent sys) :
    (∀ d, (cachedGetMenu (applyWrite w sys) d).1 = getMenuTodayDB d (applyWrite w sys).db) ∧
    (∀ b, (cachedGetStaf (applyWrite w sys) b).1 = getStafDataDB b (applyWrite w sys).db) ∧
    ((cachedGetStafAll (applyWrite w sys)).1 = getStafAllDB (applyWrite w sys).db) ∧
    ((cachedGetDepts (applyWrite w sys)).1 = getDepartemenDB (applyWrite w sys).db) ∧
    (∀ k, (cachedGetTrans (applyWrite w sys) k).1 = evalTransKey k (applyWrite w sys).db) ∧
    ((applyWrite w sys).db ≠ sys.db → (applyWrite w sys).cache = Cache.empty) := by
  have hco2 := applyWrite_coherent w sys hco
  refine ⟨fun d => cachedGetMenu_fst _ d hco2, fun b => cachedGetStaf_fst _ b hco2,
    cachedGetStafAll_fst _ hco2, cachedGetDepts_fst _ hco2,
    fun k => cachedGetTrans_fst _ k hco2, ?_⟩
  cases w with
  | record b n m hg s t wk => intro _; rfl
  | reset => intro _; rfl
  | saveMenu d m => intro _; rfl
  | addStaf b n d j =>
    by_cases hd : stafExists b sys.db
    · intro hne; exfalso; apply hne; simp [applyWrite, hd]
    · intro _; simp [applyWrite, hd]
  | updateStaf b n d j => intro _; rfl
  | deleteStaf b => intro _; rfl
  | addDept n =>
    by_cases hd : deptExists n sys.db
    · intro hne; exfalso; apply hne; simp [applyWrite, hd]
    · intro _; simp [applyWrite, hd]
  | importCsv rows => intro _; rfl

theorem write_invalidate_witness :
    (cachedGetDepts (applyWrite WriteOp.reset
        ⟨⟨["HRD"], [], [⟨"1001", "Budi", "HRD", 1, 0⟩], []⟩, Cache.empty⟩)).1
      = getDepartemenDB (applyWrite WriteOp.reset
          ⟨⟨["HRD"], [], [⟨"1001", "Budi", "HRD", 1, 0⟩], []⟩, Cache.empty⟩).db :=
  (write_ops_invalidate_cache WriteOp.reset
      ⟨⟨["HRD"], [], [⟨"1001", "Budi", "HRD", 1, 0⟩], []⟩, Cache.empty⟩
      (coherent_empty _)).2.2.2.1

/-- The quota invariant of the staff table: remaining quota is never
negative, and every row's daily quota is at least 1 (as the add/edit forms
and the CSV validation enforce). -/
def QuotaInv (db : DB) : Prop :=
  ∀ s ∈ db.staf, 0 ≤ s.jatah_tersisa ∧ 1 ≤ s.jatah_harian

/-- The constraints the UI imposes on a write operation's parameters: the
add-staff and edit-staff forms use a quota widget with minimum value 1. -/
def ValidWriteOp : WriteOp → Prop
  | .addStaf _ _ _ j => 1 ≤ j
  | .updateStaf _ _ _ j => 1 ≤ j
  | _ => True

lemma quotaInv_decrement (b : String) (l : List Staf)
    (h : ∀ s ∈ l, 0 ≤ s.jatah_tersisa ∧ 1 ≤ s.jatah_harian) :
    ∀ s ∈ decrementJatah b l, 0 ≤ s.jatah_tersisa ∧ 1 ≤ s.jatah_harian := by
  intro s hsmem
  rcases List.mem_map.mp hsmem with ⟨a, ha, rfl⟩
  rcases h a ha with ⟨h1, h2⟩
  by_cases hc : a.barcode_id = b ∧ 0 < a.jatah_tersisa
  · rw [if_pos hc]
    refine ⟨?_, ?_⟩ <;> dsimp only
    · omega
    · exact h2
  · rw [if_neg hc]
    exact ⟨h1, h2⟩

lemma insertDeptIfAbsent_staf (d : String) (db : DB) :
    (insertDeptIfAbsent d db).staf = db.staf := by
  unfold insertDeptIfAbsent
  split <;> rfl

lemma quotaInv_importRow (row : CsvRow) (acc : DB × Nat × Nat)
    (h : QuotaInv acc.1) : QuotaInv (importRow acc row).1 := by
  unfold importRow
  rcases hp : pyInt row.jatah_harian with _ | j
  · exact h
  · dsimp only
    split
    · exact h
    · next hc =>
      dsimp only
      intro s hsmem
      rw [insertDeptIfAbsent_staf] at hsmem
      unfold upsertStafDB at hsmem
      dsimp only at hsmem
      have hj : 1 ≤ j := by
        push_neg at hc
        omega
      rcases List.mem_append.mp hsmem with hin | hin
      · exact h s (List.mem_of_mem_filter hin)
      · simp at hin
        subst hin
        refine ⟨?_, ?_⟩ <;> dsimp only <;> omega

lemma quotaInv_import (rows : List CsvRow) :
    ∀ acc : DB × Nat × Nat, QuotaInv acc.1 → QuotaInv (rows.foldl importRow acc).1 := by
  induction rows with
  | nil => intro acc h; exact h
  | cons r t ih =>
    intro acc h
    simp only [List.foldl_cons]
    exact ih _ (quotaInv_importRow r acc h)

lemma applyWrite_quotaInv (w : WriteOp) (sys : Sys)
    (hv : ValidWriteOp w) (h : QuotaInv sys.db) : QuotaInv (applyWrite w sys).db := by
  cases w with
  | record b n m hg st t wk =>
    show QuotaInv (recordTransactionDB b n m hg st t wk sys.db)
    unfold recordTransactionDB
    dsimp only
    by_cases hst : st = "SUKSES"
    · rw [if_pos hst]
      exact quotaInv_decrement b sys.db.staf h
    · rw [if_neg hst]
      exact h
  | reset =>
    intro s hsmem
    rcases List.mem_map.mp hsmem with ⟨a, ha, rfl⟩
    rcases h a ha with ⟨_, h2⟩
    refine ⟨?_, ?_⟩ <;> dsimp only <;> omega
  | saveMenu d m => exact h
  | addStaf b n d j =>
    by_cases hd : stafExists b sys.db
    · simpa [applyWrite, hd] using h
    · simp only [applyWrite, hd, if_neg, Bool.false_eq_true, not_false_eq_true]
      intro s hsmem
      rcases List.mem_append.mp hsmem with hin | hin
      · exact h s hin
      · simp at hin
        subst hin
        have hj : 1 ≤ j := hv
        refine ⟨?_, ?_⟩ <;> dsimp only <;> omega
  | updateStaf b n d j =>
    intro s hsmem
    rcases List.mem_map.mp hsmem with ⟨a, ha, rfl⟩
    have hj : 1 ≤ j := hv
    by_cases hc : a.barcode_id = b
    · rw [if_pos hc]
      refine ⟨?_, ?_⟩ <;> dsimp only <;> omega
    · rw [if_neg hc]
      exact h a ha
  | deleteStaf b =>
    intro s hsmem
    exact h s (List.mem_of_mem_filter hsmem)
  | addDept n =>
    by_cases hd : deptExists n sys.db
    · simpa [applyWrite, hd] using h
    · simpa [applyWrite, hd] using h
  | importCsv rows =>
    exact quotaInv_import rows (sys.db, 0, 0) h

/-- C2: over any sequence of write operations whose parameters satisfy the
UI-enforced constraints (quota widgets have minimum 1), `jatah_tersisa`
never becomes negative: the SUCCESS-path decrement only fires on a row whose
`jatah_tersisa` is strictly positive, and every other writer re-grants a
positive quota. -/
theorem quota_never_negative (ws : List WriteOp) (sys : Sys)
    (hv : ∀ w ∈ ws, ValidWriteOp w) (h : QuotaInv sys.db) :
    QuotaInv ((ws.foldl (fun s w => applyWrite w s) sys).db) := by
  induction ws generalizing sys with
  | nil => exact h
  | cons w t ih =>
    simp only [List.foldl_cons]
    exact ih _ (fun x hx => hv x (List.mem_cons_of_mem w hx))
      (applyWrite_quotaInv w sys (hv w (List.mem_cons_self w t)) h)

theorem quota_never_negative_witness :
    QuotaInv (([WriteOp.reset,
        WriteOp.record "1001" "Budi" "Nasi Goreng" 15000 "SUKSES" "2025-01-01" "12:00:00",
        WriteOp.record "1001" "Budi" "Nasi Goreng" 15000 "SUKSES" "2025-01-01" "12:05:00"].foldl
          (fun s w => applyWrite w s)
          ⟨⟨["HRD"], [], [⟨"1001", "Budi", "HRD", 1, 1⟩], []⟩, Cache.empty⟩).db) :=
  quota_never_negative _ _
    (by intro w hw
        rcases List.mem_cons.mp hw with hw1 | hw2
        · subst hw1; exact trivial
        rcases List.mem_cons.mp hw2 with hw1 | hw3
        · subst hw1; exact trivial
        rcases List.mem_cons.mp hw3 with hw1 | hw4
        · subst hw1; exact trivial
        · cases hw4)
    (by unfold QuotaInv; decide)

/-- C8: the daily-quota reset sets `jatah_tersisa = jatah_harian` on every
non-admin staff row, changes no other field of any row (and no other table),
keeps the table's length, and — being one pure bulk map — has no
partial-failure outcome. -/
theorem reset_jatah_effect (sys : Sys) :
    (applyWrite WriteOp.reset sys).db.staf.length = sys.db.staf.length ∧
    (applyWrite WriteOp.reset sys).db.transaksi = sys.db.transaksi ∧
    (applyWrite WriteOp.reset sys).db.departemen = sys.db.departemen ∧
    (applyWrite WriteOp.reset sys).db.menu_harian = sys.db.menu_harian ∧
    ∀ (i : Nat) (r r2 : Staf), sys.db.staf[i]? = some r →
      (applyWrite WriteOp.reset sys).db.staf[i]? = some r2 →
      r2.barcode_id = r.barcode_id ∧ r2.nama = r.nama ∧ r2.departemen = r.departemen ∧
      r2.jatah_harian = r.jatah_harian ∧
      (r.barcode_id ≠ ADMIN_BARCODE_ID → r2.jatah_tersisa = r.jatah_harian) := by
  refine ⟨?_, rfl, rfl, rfl, ?_⟩
  · simp [applyWrite, resetJatahHarianDB]
  · intro i r r2 h1 h2
    have hmap : (applyWrite WriteOp.reset sys).db.staf[i]?
        = (sys.db.staf[i]?).map (fun s => { s with jatah_tersisa := s.jatah_harian }) := by
      simp [applyWrite, resetJatahHarianDB]
    rw [hmap, h1] at h2
    have h3 : { r with jatah_tersisa := r.jatah_harian } = r2 := by
      simpa using h2
    rw [← h3]
    exact ⟨rfl, rfl, rfl, rfl, fun _ => rfl⟩

theorem reset_jatah_witness :
    ((⟨"1001", "Budi", "HRD", 2, 2⟩ : Staf).jatah_tersisa
      = (⟨"1001", "Budi", "HRD", 2, 0⟩ : Staf).jatah_harian) ∧
    (applyWrite WriteOp.reset
        ⟨⟨["HRD"], [], [⟨"1001", "Budi", "HRD", 2, 0⟩], []⟩, Cache.empty⟩).db.transaksi
      = [] :=
  ⟨((reset_jatah_effect
        ⟨⟨["HRD"], [], [⟨"1001", "Budi", "HRD", 2, 0⟩], []⟩, Cache.empty⟩).2.2.2.2
      0 ⟨"1001", "Budi", "HRD", 2, 0⟩ ⟨"1001", "Budi", "HRD", 2, 2⟩
      (by decide) (by decide)).2.2.2.2 (by decide),
   (reset_jatah_effect
        ⟨⟨["HRD"], [], [⟨"1001", "Budi", "HRD", 2, 0⟩], []⟩, Cache.empty⟩).2.1⟩

/-- The quota cell of a CSV row parses (as Python `int`) to a positive value. -/
def quotaPositive (row : CsvRow) : Bool :=
  match pyInt row.jatah_harian with
  | some j => decide (0 < j)
  | none => false

/-- A CSV row passes the per-row validation of `import_staf_from_csv`:
its quota parses as a positive integer and all four cells are non-empty
after trimming. -/
def RowValid (row : CsvRow) : Prop :=
  quotaPositive row = true ∧ pyStrip row.barcode_id ≠ "" ∧ pyStrip row.nama ≠ "" ∧
  pyStrip row.departemen ≠ "" ∧ pyStrip row.jatah_harian ≠ ""

lemma pyInt_none_of_strip_empty (x : String) (h : pyStrip x = "") : pyInt x = none := by
  unfold pyInt
  rw [h]

instance (row : CsvRow) : Decidable (RowValid row) := by
  unfold RowValid
  infer_instance

/-- C9: processing one CSV import row accepts it only when it is valid
(quota parses to a positive integer, all four cells non-empty after
trimming); an invalid row is skipped — the store is untouched, the success
count unchanged, and the failure count grows by exactly one. -/
theorem import_row_validation (row : CsvRow) (db : DB) (sc fc : Nat) :
    (¬ RowValid row → importRow (db, sc, fc) row = (db, sc, fc + 1)) ∧
    ((importRow (db, sc, fc) row).2.1 = sc + 1 → RowValid row) := by
  unfold importRow
  rcases hp : pyInt row.jatah_harian with _ | j
  · dsimp only
    exact ⟨fun _ => rfl, fun hcount => by simp at hcount⟩
  · dsimp only
    by_cases hc : pyStrip row.barcode_id = "" ∨ pyStrip row.nama = "" ∨
        pyStrip row.departemen = "" ∨ j ≤ 0
    · rw [if_pos hc]
      exact ⟨fun _ => rfl, fun hcount => by simp at hcount⟩
    · rw [if_neg hc]
      push_neg at hc
      have htrim : pyStrip row.jatah_harian ≠ "" := by
        intro he
        rw [pyInt_none_of_strip_empty row.jatah_harian he] at hp
        exact Option.noConfusion hp
      have hvalid : RowValid row := by
        refine ⟨?_, hc.1, hc.2.1, hc.2.2.1, htrim⟩
        unfold quotaPositive
        rw [hp]
        simpa using hc.2.2.2
      exact ⟨fun hnv => absurd hvalid hnv, fun _ => hvalid⟩

theorem import_row_witness :
    ¬ RowValid ⟨"1001", "Budi", "HRD", "0"⟩ ∧
    importRow (⟨[], [], [], []⟩, 0, 0) ⟨"1001", "Budi", "HRD", "0"⟩
      = (⟨[], [], [], []⟩, 0, 0 + 1) :=
  ⟨by decide,
   (import_row_validation ⟨"1001", "Budi", "HRD", "0"⟩ ⟨[], [], [], []⟩ 0 0).1 (by decide)⟩

/-- C10: every row of the transaction report comes from a `transaksi` row
whose `barcode_id` matches some currently existing `staf` row (the query is
an INNER JOIN); hence FAILURE transactions of unregistered barcodes and
transactions of since-deleted staff never appear in the report, although
their rows stay in the transaction table. -/
theorem report_join_requires_staff (db : DB) (from_date to_date : String)
    (departemen status_scan : Option String) (row : TransRow)
    (h : row ∈ getTransactionsByDateDB from_date to_date departemen status_scan db) :
    (∃ s ∈ db.staf, s.barcode_id = row.barcode_id) ∧
    (∃ t ∈ db.transaksi, t.barcode_id = row.barcode_id ∧ t.tanggal = row.tanggal ∧
      t.waktu = row.waktu ∧ t.menu = row.menu ∧ t.harga = row.harga ∧
      t.staff_nama = row.staff_nama ∧ t.status_scan = row.status_scan) := by
  unfold getTransactionsByDateDB at h
  rw [List.mem_mergeSort] at h
  rcases List.mem_flatMap.mp h with ⟨t, ht, hrow⟩
  rcases List.mem_filterMap.mp hrow with ⟨s, hsmem, hf⟩
  split at hf
  · next hcond =>
    have hr := Option.some.inj hf
    subst hr
    exact ⟨⟨s, hsmem, hcond.1⟩, ⟨t, ht, rfl, rfl, rfl, rfl, rfl, rfl, rfl⟩⟩
  · exact Option.noConfusion hf

theorem report_join_witness :
    (∃ s ∈ (⟨["HRD"], [], [⟨"1001", "Budi", "HRD", 1, 0⟩],
        [⟨"1001", "2025-01-01", "12:00:00", "Nasi Goreng", 15000, "Budi", "SUKSES"⟩]⟩
          : DB).staf,
      s.barcode_id = (⟨"2025-01-01", "12:00:00", "1001", "Budi", "HRD",
        "Nasi Goreng", 15000, "SUKSES"⟩ : TransRow).barcode_id) ∧
    (∃ t ∈ (⟨["HRD"], [], [⟨"1001", "Budi", "HRD", 1, 0⟩],
        [⟨"1001", "2025-01-01", "12:00:00", "Nasi Goreng", 15000, "Budi", "SUKSES"⟩]⟩
          : DB).transaksi,
      t.barcode_id = (⟨"2025-01-01", "12:00:00", "1001", "Budi", "HRD",
          "Nasi Goreng", 15000, "SUKSES"⟩ : TransRow).barcode_id ∧
      t.tanggal = "2025-01-01" ∧ t.waktu = "12:00:00" ∧ t.menu = "Nasi Goreng" ∧
      t.harga = 15000 ∧ t.staff_nama = "Budi" ∧ t.status_scan = "SUKSES") :=
  report_join_requires_staff
    ⟨["HRD"], [], [⟨"1001", "Budi", "HRD", 1, 0⟩],
      [⟨"1001", "2025-01-01", "12:00:00", "Nasi Goreng", 15000, "Budi", "SUKSES"⟩]⟩
    "2025-01-01" "2025-01-01" none none
    ⟨"2025-01-01", "12:00:00", "1001", "Budi", "HRD", "Nasi Goreng", 15000, "SUKSES"⟩
    (by unfold getTransactionsByDateDB
        rw [List.mem_mergeSort]
        refine List.mem_flatMap.mpr ⟨_, List.mem_singleton_self _, ?_⟩
        refine List.mem_filterMap.mpr ⟨_, List.mem_singleton_self _, ?_⟩
        rw [if_pos ⟨rfl, le_refl _, le_refl _, rfl, rfl⟩])
